import Mathlib

/-!
Verification development for the Doable chat tool-calling layer
(`src/app/api/teams/[teamId]/chat/route.ts`) and the client refresh
heuristic (`src/components/ai/ai-chatbot.tsx`).

JavaScript strings are modelled as `String`; `null`/`undefined` argument
values collapse to `Option`'s `none` except where the source distinguishes
them (`assigneeId` in updateIssue, where `Option (Option String)` separates
`undefined` from `null`).  JavaScript truthiness on strings is `s ≠ ""`,
on numbers `n ≠ 0`, and arrays are always truthy.
-/

/-- `listLeads p l` : `p` occurs at the start of `l` (character-list prefix test). -/
def listLeads : List Char → List Char → Bool
  | [], _ => true
  | _ :: _, [] => false
  | a :: as, b :: bs => a == b && listLeads as bs

/-- Helper for `strIncludes`: does `sub` occur contiguously inside the haystack? -/
def includesAux (sub : List Char) : List Char → Bool
  | [] => listLeads sub []
  | c :: rest => listLeads sub (c :: rest) || includesAux sub rest

/-- Model of JavaScript `hay.includes(sub)` (substring containment). -/
def strIncludes (hay sub : String) : Bool :=
  includesAux sub.data hay.data

/-- Model of JavaScript `s.toLowerCase()` (per-character lowering). -/
def strLower (s : String) : String :=
  ⟨s.data.map Char.toLower⟩

/-- Model of JavaScript `array.join(sep)`. -/
def joinSep (sep : String) : List String → String
  | [] => ""
  | [x] => x
  | x :: y :: ys => x ++ sep ++ joinSep sep (y :: ys)

/-- JavaScript truthiness of a possibly-absent string (`null`/`undefined`/`""` are falsy). -/
def truthy : Option String → Bool
  | none => false
  | some s => s != ""

/-- The route's "missing" test for string arguments:
`!v || v === 'null' || v === 'undefined'`. -/
def missingStr : Option String → Bool
  | none => true
  | some s => s == "" || s == "null" || s == "undefined"

inductive Priority where
  | none
  | low
  | medium
  | high
  | urgent
deriving DecidableEq, Repr

structure Project where
  id : String
  name : String
  key : String
deriving DecidableEq, Repr

structure WorkflowState where
  id : String
  name : String
deriving DecidableEq, Repr

structure Label where
  id : String
  name : String
deriving DecidableEq, Repr

structure Member where
  userId : String
  userName : String
deriving DecidableEq, Repr

/-- The team context snapshot fetched once per request (`getTeamContext`). -/
structure TeamContext where
  projects : List Project
  workflowStates : List WorkflowState
  labels : List Label
  members : List Member
deriving DecidableEq, Repr

/-- Arguments of the `createIssue` tool (all `nullish` in the zod schema). -/
structure CreateIssueArgs where
  title : Option String := none
  description : Option String := none
  projectId : Option String := none
  workflowStateId : Option String := none
  assigneeId : Option String := none
  priority : Option Priority := none
  estimate : Option Int := none
  labelIds : Option (List String) := none
deriving DecidableEq, Repr

/-- The argument record passed to the data-store `createIssue` call. -/
structure CreateIssuePayload where
  title : String
  description : Option String
  projectId : String
  workflowStateId : String
  assigneeId : Option String
  priority : Priority
  estimate : Option Int
  labelIds : Option (List String)
deriving DecidableEq, Repr

inductive CreateIssueResult where
  | failure (error : String)
  | dispatch (payload : CreateIssuePayload)
deriving DecidableEq, Repr

/-- `missingFields` accumulator of `createIssue.execute` (source order:
title, status, priority, project).  Priority is missing only when
`null`/`undefined`; the strings are checked with the `missingStr` test. -/
def missingFields (a : CreateIssueArgs) : List String :=
  (if missingStr a.title then ["title"] else []) ++
  (if missingStr a.workflowStateId then ["status (workflow state)"] else []) ++
  (if a.priority.isNone then ["priority"] else []) ++
  (if missingStr a.projectId then ["project"] else [])

/-- `teamContext.projects.map(p => `${p.name} (${p.key})`).join(', ')` with the
`'No projects available'` fallback. -/
def availableProjectsStr (ctx : TeamContext) : String :=
  if ctx.projects.isEmpty then "No projects available"
  else joinSep ", " (ctx.projects.map (fun p => p.name ++ " (" ++ p.key ++ ")"))

def priorityOnlyMsg : String :=
  "To create this issue, I need to know the priority level. Please specify a priority: low, medium, high, urgent, or none."

def projectOnlyMsg (ctx : TeamContext) : String :=
  "To create this issue, I need to know which project to add it to. " ++
  (if !ctx.projects.isEmpty then
    "Available projects: " ++ availableProjectsStr ctx ++ ". Please specify which project this issue should be added to."
  else "Please create a project first or specify an existing project.")

def bothMissingMsg (ctx : TeamContext) : String :=
  "To create this issue, I need two things: (1) the priority level (low, medium, high, urgent, or none), and (2) which project to add it to. " ++
  (if !ctx.projects.isEmpty then "Available projects: " ++ availableProjectsStr ctx ++ "."
  else "Please create a project first or specify an existing project.")

def priorityComboMsg (otherFields : List String) : String :=
  "Missing required information: " ++ joinSep ", " otherFields ++
  ", and priority. Please provide " ++ (if otherFields.length == 1 then "this" else "these") ++
  " along with a priority level (low, medium, high, urgent, or none) to create the issue."

def projectComboMsg (ctx : TeamContext) (otherFields : List String) : String :=
  "Missing required information: " ++ joinSep ", " otherFields ++
  ", and project. Please provide " ++ (if otherFields.length == 1 then "this" else "these") ++
  " along with a project. " ++
  (if !ctx.projects.isEmpty then "Available projects: " ++ availableProjectsStr ctx ++ "."
  else "Please create a project first or specify an existing project.")

def genericMissingMsg (missing : List String) : String :=
  "Missing required information: " ++ joinSep ", " missing ++
  ". Please provide " ++ (if missing.length == 1 then "this" else "these") ++
  " to create the issue."

/-- The clarification-message cascade of `createIssue.execute`
(lines 140–194 of the route). -/
def clarificationMessage (ctx : TeamContext) (missing : List String) : String :=
  if missing.contains "priority" && missing.length == 1 then
    priorityOnlyMsg
  else if missing.contains "project" && missing.length == 1 then
    projectOnlyMsg ctx
  else if missing.contains "priority" && missing.contains "project" && missing.length == 2 then
    bothMissingMsg ctx
  else if missing.contains "priority" then
    priorityComboMsg (missing.filter (fun f => f != "priority"))
  else if missing.contains "project" then
    projectComboMsg ctx (missing.filter (fun f => f != "project"))
  else
    genericMissingMsg missing

/-- Project resolution of `createIssue.execute`: first element whose id, key
(case-insensitive) or name (case-insensitive) equals the argument. -/
def resolveProject (ctx : TeamContext) (s : String) : Option String :=
  (ctx.projects.find? (fun p =>
    p.id == s || strLower p.key == strLower s || strLower p.name == strLower s)).map Project.id

def projectNotFoundMsg (ctx : TeamContext) (s : String) : String :=
  "The project \"" ++ s ++ "\" was not found. " ++
  (if !ctx.projects.isEmpty then
    "Available projects: " ++ availableProjectsStr ctx ++ ". Please specify a valid project name, key, or ID."
  else "Please create a project first or specify an existing project.")

/-- Workflow-state resolution: first state whose id or lower-cased name matches;
an unmatched reference is kept verbatim. -/
def resolveWorkflowState (ctx : TeamContext) (s : String) : String :=
  match ctx.workflowStates.find? (fun w => w.id == s || strLower w.name == strLower s) with
  | some w => w.id
  | Option.none => s

/-- `workflowStateId || defaultWorkflowState?.id || teamContext.workflowStates[0]?.id`
(`defaultWorkflowState` is itself `workflowStates[0]`; an absent fallback flows
into the non-null assertion, modelled as `""`). -/
def wsInput (ctx : TeamContext) (w : Option String) : String :=
  match w with
  | some s => if s != "" then s else ((ctx.workflowStates.head?.map WorkflowState.id).getD "")
  | Option.none => (ctx.workflowStates.head?.map WorkflowState.id).getD ""

/-- Assignee resolution of `createIssue.execute` (runs whenever the argument is
truthy; an unmatched name is kept verbatim). -/
def resolveAssigneeCreate (ctx : TeamContext) (x : Option String) : Option String :=
  match x with
  | some s =>
    if s != "" then
      match ctx.members.find? (fun m => m.userId == s || strLower m.userName == strLower s) with
      | some m => some m.userId
      | Option.none => some s
    else some s
  | Option.none => none

/-- Label resolution: id or case-insensitive name; unmatched entries kept verbatim. -/
def resolveLabel (ctx : TeamContext) (s : String) : String :=
  match ctx.labels.find? (fun l => l.id == s || strLower l.name == strLower s) with
  | some l => l.id
  | Option.none => s

/-- `x || undefined` on a string-valued expression. -/
def orUndef : Option String → Option String
  | some s => if s == "" then none else some s
  | Option.none => none

/-- `x || undefined` on a number-valued expression. -/
def orUndefInt : Option Int → Option Int
  | some n => if n == 0 then none else some n
  | Option.none => none

/-- The payload handed to the data-store `createIssue` call once validation and
resolution succeeded (`rpid` is the resolved project id). -/
def createPayload (ctx : TeamContext) (a : CreateIssueArgs) (rpid : String) : CreateIssuePayload :=
  { title := a.title.getD ""
    description := orUndef a.description
    projectId := rpid
    workflowStateId := resolveWorkflowState ctx (wsInput ctx a.workflowStateId)
    assigneeId := orUndef (resolveAssigneeCreate ctx a.assigneeId)
    priority := a.priority.getD Priority.none
    estimate := orUndefInt a.estimate
    labelIds := a.labelIds.map (fun l => if l.length > 0 then l.map (resolveLabel ctx) else l) }

/-- `createIssue.execute`: missing-field validation, then project resolution
(the only reference whose failure aborts), then dispatch.  Validation
guarantees `projectId` is a truthy non-sentinel string when resolution runs. -/
def createIssueExecute (ctx : TeamContext) (a : CreateIssueArgs) : CreateIssueResult :=
  if !(missingFields a).isEmpty then
    .failure (clarificationMessage ctx (missingFields a))
  else
    match resolveProject ctx (a.projectId.getD "") with
    | Option.none => .failure (projectNotFoundMsg ctx (a.projectId.getD ""))
    | some rpid => .dispatch (createPayload ctx a rpid)

/-- An issue row as returned by `getIssues` (fields used by the chat tools). -/
structure Issue where
  id : String
  number : Nat
  title : String
deriving DecidableEq, Repr

/-- Arguments of the `updateIssue` tool.  `assigneeId` is `nullish` and the
source distinguishes `undefined` (no change) from `null` (unassign), so it is
`Option (Option String)`: outer `none` = `undefined`, `some none` = `null`. -/
structure UpdateIssueArgs where
  issueId : Option String := none
  title : Option String := none
  newTitle : Option String := none
  description : Option String := none
  workflowStateId : Option String := none
  assigneeId : Option (Option String) := none
  priority : Option Priority := none
  estimate : Option Int := none
  labelIds : Option (List String) := none
deriving DecidableEq, Repr

/-- The update record passed to the data-store `updateIssue` call: each field
is present only when its conditional spread fires.  `assigneeChange` carries
`(assigneeId ?? null, assignee)` when the assignee spread is included. -/
structure UpdateIssuePayload where
  title : Option String
  description : Option String
  workflowStateId : Option String
  assigneeChange : Option (Option String × Option String)
  priority : Option Priority
  estimate : Option Int
  labelIds : Option (List String)
deriving DecidableEq, Repr

inductive UpdateIssueResult where
  | failure (error : String)
  | dispatch (issueId : String) (payload : UpdateIssuePayload)
deriving DecidableEq, Repr

/-- The title search of updateIssue/deleteIssue:
`issues.filter(i => i.title.toLowerCase().includes(title.toLowerCase()))`. -/
def locateByTitle (issues : List Issue) (t : String) : List Issue :=
  issues.filter (fun i => strIncludes (strLower i.title) (strLower t))

def noIssueFoundMsg (t : String) : String :=
  "No issue found with title \"" ++ t ++ "\""

def multipleIssuesMsg (t : String) (l : List Issue) : String :=
  "Multiple issues found matching \"" ++ t ++ "\": " ++
  joinSep ", " (l.map (fun i => "#" ++ toString i.number ++ " \"" ++ i.title ++ "\"")) ++
  ". Please be more specific."

/-- Assignee resolution of `updateIssue.execute` (lines 347–362): the literal
sentinels `"unassigned"`, `"null"`, `"undefined"` and actual `null` clear the
assignee; other truthy strings run the member matcher and pass through
verbatim when unmatched; `""` passes through untouched. -/
def resolveAssigneeUpdate (ctx : TeamContext) (x : Option (Option String)) :
    Option String × Option String :=
  match x with
  | some (some s) =>
    if s != "" && s != "unassigned" && s != "null" && s != "undefined" then
      match ctx.members.find? (fun m => m.userId == s || strLower m.userName == strLower s) with
      | some m => (some m.userId, some m.userName)
      | Option.none => (some s, none)
    else if s == "unassigned" || s == "null" || s == "undefined" then (none, none)
    else (some s, none)
  | some Option.none => (none, none)
  | Option.none => (none, none)

/-- The update record built by `updateIssue.execute`'s conditional spreads. -/
def updatePayload (ctx : TeamContext) (a : UpdateIssueArgs) : UpdateIssuePayload :=
  { title := (match a.newTitle with
      | some s => if s != "" then some s else none
      | Option.none => none)
    description := a.description
    workflowStateId := (match a.workflowStateId with
      | some s =>
        if s != "" then
          (if resolveWorkflowState ctx s != "" then some (resolveWorkflowState ctx s) else none)
        else none
      | Option.none => none)
    assigneeChange := (match a.assigneeId with
      | some _ => some (resolveAssigneeUpdate ctx a.assigneeId)
      | Option.none => none)
    priority := a.priority
    estimate := (match a.estimate with
      | some e => if e != 0 then some e else none
      | Option.none => none)
    labelIds := a.labelIds.map (fun l => if l.length > 0 then l.map (resolveLabel ctx) else l) }

/-- `updateIssue.execute`: locate by id or by title search, then resolve and
dispatch the update. -/
def updateIssueExecute (ctx : TeamContext) (issues : List Issue) (a : UpdateIssueArgs) :
    UpdateIssueResult :=
  let step : Except String (Option String) :=
    if truthy a.title && !truthy a.issueId then
      match locateByTitle issues (a.title.getD "") with
      | [] => .error (noIssueFoundMsg (a.title.getD ""))
      | [i] => .ok (some i.id)
      | l => .error (multipleIssuesMsg (a.title.getD "") l)
    else .ok a.issueId
  match step with
  | .error e => .failure e
  | .ok rid =>
    if !truthy rid then .failure "Either issueId or title must be provided"
    else .dispatch (rid.getD "") (updatePayload ctx a)

inductive DeleteIssueResult where
  | failure (error : String)
  | dispatch (issueId : String) (message : String)
deriving DecidableEq, Repr

/-- `deleteIssue.execute`: locate by title search or id, re-read the issue by
id (`getIssueById`, modelled as lookup in the same snapshot), then dispatch
the deletion. -/
def deleteIssueExecute (issues : List Issue) (title issueId : Option String) :
    DeleteIssueResult :=
  let step : Except String (Option String) :=
    if truthy title && !truthy issueId then
      match locateByTitle issues (title.getD "") with
      | [] => .error (noIssueFoundMsg (title.getD ""))
      | [i] => .ok (some i.id)
      | l => .error (multipleIssuesMsg (title.getD "") l)
    else .ok issueId
  match step with
  | .error e => .failure e
  | .ok rid =>
    if !truthy rid then .failure "Either title or issueId must be provided"
    else
      match issues.find? (fun i => i.id == rid.getD "") with
      | Option.none => .failure "Issue not found"
      | some i =>
        .dispatch (rid.getD "")
          ("Issue #" ++ toString i.number ++ " \"" ++ i.title ++ "\" has been deleted successfully.")

inductive ProjStatus where
  | active
  | completed
  | canceled
deriving DecidableEq, Repr

/-- Arguments of the `createProject` tool (`name` and `key` are required by the
schema; the rest optional). -/
structure CreateProjectArgs where
  name : String
  description : Option String := none
  key : String
  color : Option String := none
  icon : Option String := none
  leadId : Option String := none
  status : Option ProjStatus := none
deriving DecidableEq, Repr

/-- The record passed to the data-store `createProject` call. -/
structure CreateProjectPayload where
  name : String
  description : Option String
  key : String
  color : String
  icon : Option String
  leadId : Option String
  status : ProjStatus
  lead : Option String
deriving DecidableEq, Repr

/-- `createProject.execute`: no missing-field validation beyond the schema;
`color || '#6366f1'` and `status || 'active'` supply the defaults, then the
creation is dispatched unconditionally. -/
def createProjectExecute (ctx : TeamContext) (a : CreateProjectArgs) : CreateProjectPayload :=
  { name := a.name
    description := a.description
    key := a.key
    color := (match a.color with
      | some c => if c != "" then c else "#6366f1"
      | Option.none => "#6366f1")
    icon := a.icon
    leadId := a.leadId
    status := a.status.getD ProjStatus.active
    lead := (match a.leadId with
      | some lid =>
        if lid != "" then (ctx.members.find? (fun m => m.userId == lid)).map Member.userName
        else none
      | Option.none => none) }

structure UpdateProjectArgs where
  projectId : Option String := none
  name : Option String := none
  newName : Option String := none
  description : Option String := none
  status : Option ProjStatus := none
  color : Option String := none
  icon : Option String := none
  leadId : Option String := none
deriving DecidableEq, Repr

/-- The update record of `updateProject.execute` (conditional spreads);
`leadChange` carries `(leadId, lead)` when the `leadId !== undefined` spread
fires. -/
structure UpdateProjectPayload where
  name : Option String
  description : Option String
  status : Option ProjStatus
  color : Option String
  icon : Option String
  leadChange : Option (String × Option String)
deriving DecidableEq, Repr

inductive UpdateProjectResult where
  | failure (error : String)
  | dispatch (projectId : String) (payload : UpdateProjectPayload)
deriving DecidableEq, Repr

def noProjectFoundMsg (n : String) : String :=
  "No project found with name \"" ++ n ++ "\""

def multipleProjectsMsg (n : String) (l : List Project) : String :=
  "Multiple projects found matching \"" ++ n ++ "\": " ++
  joinSep ", " (l.map (fun p => p.name ++ " (" ++ p.key ++ ")")) ++
  ". Please be more specific."

/-- The name search of updateProject:
`projects.filter(p => p.name.toLowerCase().includes(name.toLowerCase()))`. -/
def locateProjectsByName (projects : List Project) (n : String) : List Project :=
  projects.filter (fun p => strIncludes (strLower p.name) (strLower n))

/-- The update record built by `updateProject.execute`'s conditional spreads. -/
def updateProjectPayload (ctx : TeamContext) (a : UpdateProjectArgs) : UpdateProjectPayload :=
  { name := (match a.newName with
      | some s => if s != "" then some s else none
      | Option.none => none)
    description := a.description
    status := a.status
    color := (match a.color with
      | some s => if s != "" then some s else none
      | Option.none => none)
    icon := (match a.icon with
      | some s => if s != "" then some s else none
      | Option.none => none)
    leadChange := (match a.leadId with
      | some lid =>
        some (lid,
          if lid != "" then (ctx.members.find? (fun m => m.userId == lid)).map Member.userName
          else none)
      | Option.none => none) }

/-- `updateProject.execute`. -/
def updateProjectExecute (ctx : TeamContext) (a : UpdateProjectArgs) : UpdateProjectResult :=
  let step : Except String (Option String) :=
    if truthy a.name && !truthy a.projectId then
      match locateProjectsByName ctx.projects (a.name.getD "") with
      | [] => .error (noProjectFoundMsg (a.name.getD ""))
      | [p] => .ok (some p.id)
      | l => .error (multipleProjectsMsg (a.name.getD "") l)
    else .ok a.projectId
  match step with
  | .error e => .failure e
  | .ok rid =>
    if !truthy rid then .failure "Either projectId or name must be provided"
    else .dispatch (rid.getD "") (updateProjectPayload ctx a)

/-- JavaScript `issues.slice(0, n)` (negative end counts from the back). -/
def sliceTo (l : List Issue) (n : Int) : List Issue :=
  if n < 0 then l.take ((l.length + n).toNat) else l.take n.toNat

structure ListIssuesResult where
  issues : List Issue
  count : Nat
  total : Nat
  message : String
deriving DecidableEq, Repr

/-- `listIssues.execute`: `limit ? issues.slice(0, limit) : issues` — a `0`,
`null` or absent limit is falsy, so everything is returned; the per-issue
response projection is 1-to-1 and elided. -/
def listIssuesExecute (issues : List Issue) (limit : Option Int) : ListIssuesResult :=
  let limited := match limit with
    | some n => if n != 0 then sliceTo issues n else issues
    | Option.none => issues
  { issues := limited
    count := limited.length
    total := issues.length
    message :=
      if limited.length == issues.length then
        "Found all " ++ toString issues.length ++ " issues"
      else
        "Showing " ++ toString limited.length ++ " of " ++ toString issues.length ++ " total issues" }

/-- A part of a streamed chat message (fields read by the refresh heuristic). -/
structure MsgPart where
  type : String
  toolName : Option String := none
  text : String := ""
deriving DecidableEq, Repr

/-- A streamed chat message as seen by the observer (an absent id is `""`,
which is falsy). -/
structure ChatMsg where
  id : String
  role : String
  parts : List MsgPart
deriving DecidableEq, Repr

/-- Tool names collected from a message's parts: a `tool-call` part pushes its
name unconditionally, then any part carrying a name pushes it if absent. -/
def partToolNames (parts : List MsgPart) : List String :=
  parts.foldl (fun tn p =>
    let tn := match p.toolName with
      | some n => if p.type == "tool-call" then tn ++ [n] else tn
      | Option.none => tn
    match p.toolName with
    | some n => if tn.contains n then tn else tn ++ [n]
    | Option.none => tn) []

/-- `message.parts.filter(text).map(text).join(' ').toLowerCase()`. -/
def msgText (parts : List MsgPart) : String :=
  strLower (joinSep " " ((parts.filter (fun p => p.type == "text")).map MsgPart.text))

/-- Append two names when neither is present yet (the paired singular/bulk push). -/
def addPair (tn : List String) (a b : String) : List String :=
  if !tn.contains a && !tn.contains b then tn ++ [a, b] else tn

/-- Append one name when absent. -/
def addOne (tn : List String) (a : String) : List String :=
  if !tn.contains a then tn ++ [a] else tn

/-- The keyword co-occurrence cascade over the lower-cased message text
(ai-chatbot lines 188–256), run only when the text is non-empty. -/
def inferFromText (t : String) (tn0 : List String) : List String :=
  let tn := tn0
  let tn :=
    if (strIncludes t "issue" || strIncludes t "#" || strIncludes t "✔") &&
       (strIncludes t "created" || strIncludes t "has been created") then
      addPair tn "createIssue" "createIssues"
    else tn
  let tn :=
    if strIncludes t "issue" && strIncludes t "updated" then
      addPair tn "updateIssue" "updateIssues"
    else tn
  let tn :=
    if strIncludes t "issue" && strIncludes t "deleted" then
      addPair tn "deleteIssue" "deleteIssues"
    else tn
  let tn :=
    if strIncludes t "project" then
      let tn :=
        if strIncludes t "created" || strIncludes t "has been created" ||
           strIncludes t "successfully" || strIncludes t "created successfully" ||
           strIncludes t "✔" then
          addPair tn "createProject" "createProjects"
        else tn
      let tn := if strIncludes t "updated" then addOne tn "updateProject" else tn
      let tn :=
        if strIncludes t "deleted" || strIncludes t "removed" then
          addOne tn "deleteProject"
        else tn
      if strIncludes t "member" || strIncludes t "added" || strIncludes t "removed" then
        let tn :=
          if strIncludes t "added" || strIncludes t "add" then
            addOne tn "addProjectMember"
          else tn
        let tn :=
          if strIncludes t "removed" || strIncludes t "remove" || strIncludes t "delete" then
            addOne tn "removeProjectMember"
          else tn
        if strIncludes t "list" || strIncludes t "show" || strIncludes t "members" then
          addOne tn "listProjectMembers"
        else tn
      else tn
    else tn
  let tn :=
    if strIncludes t "invited" || strIncludes t "invitation" || strIncludes t "team member" then
      addPair tn "inviteTeamMember" "inviteTeamMembers"
    else tn
  let tn :=
    if strIncludes t "invitation" &&
       (strIncludes t "revoked" || strIncludes t "cancelled" ||
        strIncludes t "removed" || strIncludes t "deleted") then
      addOne tn "revokeInvitation"
    else tn
  if strIncludes t "team member" && (strIncludes t "removed" || strIncludes t "deleted") then
    addOne tn "removeTeamMember"
  else tn

/-- All tool indicators of one message: explicit part metadata plus the text
heuristic. -/
def msgToolNames (m : ChatMsg) : List String :=
  let tn := partToolNames m.parts
  let t := msgText m.parts
  if t.length > 0 then inferFromText t tn else tn

/-- `[...new Set(toolNames)]`: de-duplicate keeping first occurrences. -/
def dedupFirst (l : List String) : List String :=
  l.foldl (fun acc x => if acc.contains x then acc else acc ++ [x]) []

/-- A scheduled `setTimeout` dispatch: delay in milliseconds and the actions
fired (refresh events / query invalidations), in dispatch order. -/
structure Sched where
  delay : Nat
  events : List String
deriving DecidableEq, Repr

def targetedDelay : Nat := 400

def fallbackDelay : Nat := 700

/-- The refresh events fired by the per-message `setTimeout` given the joined
tool string. -/
def schedEvents (ts : String) : List String :=
  (if strIncludes ts "createIssue" || strIncludes ts "createIssues" ||
      strIncludes ts "updateIssue" || strIncludes ts "updateIssues" ||
      strIncludes ts "deleteIssue" || strIncludes ts "deleteIssues" then
    ["refresh-issues"] else []) ++
  (if strIncludes ts "createProject" || strIncludes ts "createProjects" ||
      strIncludes ts "updateProject" || strIncludes ts "deleteProject" then
    ["refresh-projects"] else []) ++
  (if strIncludes ts "inviteTeamMember" || strIncludes ts "inviteTeamMembers" ||
      strIncludes ts "revokeInvitation" || strIncludes ts "removeTeamMember" then
    ["refresh-people"] else [])

/-- The timeout scheduled for one message, when any tool indicator was found. -/
def msgSched (m : ChatMsg) : List Sched :=
  let tn := msgToolNames m
  if tn.isEmpty then []
  else [⟨targetedDelay, schedEvents (joinSep " " (dedupFirst tn))⟩]

/-- Per-message pass of the observer effect: skip messages with a falsy id or
an id already in the processed set, otherwise scan, mark processed, and
schedule the targeted refresh. -/
def processMessages (processed : List String) : List ChatMsg → List String × List Sched
  | [] => (processed, [])
  | m :: rest =>
    if m.id == "" || processed.contains m.id then
      processMessages processed rest
    else
      let out := processMessages (processed ++ [m.id]) rest
      (out.1, msgSched m ++ out.2)

/-- The actions of the unconditional fallback timeout (ai-chatbot lines
289–301): all three refresh events plus the conversation-query invalidation. -/
def fallbackEvents : List String :=
  ["refresh-issues", "refresh-projects", "refresh-people", "invalidate-chat-conversation"]

/-- Observer state: the lifetime processed-id set and the previous status. -/
structure ObserverState where
  processed : List String
  prevStatus : String
deriving DecidableEq, Repr

/-- One run of the tool-execution observer effect: on a loading→ready
transition with messages present, process every unprocessed message, and
schedule the fallback when the final message is assistant-authored; the
previous-status ref becomes `status || 'ready'`. -/
def observerStep (st : ObserverState) (status : String) (msgs : List ChatMsg) :
    ObserverState × List Sched :=
  let wasLoading := st.prevStatus != "ready"
  let isReady := status == "ready"
  let (processed2, scheds) :=
    if isReady && wasLoading && !msgs.isEmpty then
      let out := processMessages st.processed msgs
      let fallback := match msgs.getLast? with
        | some last =>
          if last.role == "assistant" then [⟨fallbackDelay, fallbackEvents⟩] else []
        | Option.none => []
      (out.1, out.2 ++ fallback)
    else (st.processed, [])
  (⟨processed2, if status == "" then "ready" else status⟩, scheds)

def dropLeadSpaces : List Char → List Char
  | [] => []
  | c :: r => if c == ' ' then dropLeadSpaces r else c :: r

/-- Trim leading and trailing spaces (for the spec-side resolver). -/
def trimStr (s : String) : String :=
  ⟨(dropLeadSpaces (dropLeadSpaces s.data.reverse).reverse)⟩

inductive SpecOutcome where
  | resolved (id : String)
  | ambiguous (ids : List String)
  | notFound
deriving DecidableEq, Repr

/-- The resolver the claim describes, written from the spec's words, for
comparison with the code's resolution: exact case-insensitive name matches
first; on zero exact matches fall back to two-way substring containment,
with zero/one/many substring matches giving NotFound/Resolved/Ambiguous.
The collection is (id, name) pairs. -/
def specResolve (coll : List (String × String)) (ref : String) : SpecOutcome :=
  let t := strLower (trimStr ref)
  match coll.filter (fun e => strLower e.2 == t) with
  | [e] => .resolved e.1
  | [] =>
    match coll.filter (fun e => strIncludes (strLower e.2) t || strIncludes t (strLower e.2)) with
    | [] => .notFound
    | [e] => .resolved e.1
    | l => .ambiguous (l.map (fun e => e.1))
  | l => .ambiguous (l.map (fun e => e.1))

/-! Concrete fixtures used by witnesses and counterexamples. -/

def ctx0 : TeamContext :=
  { projects := [⟨"p1", "Web App", "WAP"⟩, ⟨"p2", "Mobile", "MOB"⟩]
    workflowStates := [⟨"ws1", "Todo"⟩, ⟨"ws2", "In Progress"⟩]
    labels := [⟨"l1", "Bug"⟩]
    members := [⟨"u1", "kartik"⟩] }

/-- Context with a single project whose name strictly contains "Web" while its
id and key do not match "Web" in any case. -/
def ctx3 : TeamContext :=
  { projects := [⟨"p1", "Web App", "WAP"⟩]
    workflowStates := [⟨"ws1", "Todo"⟩]
    labels := []
    members := [] }

def issues0 : List Issue :=
  [⟨"i1", 1, "Fix login bug"⟩, ⟨"i2", 2, "Fix logout bug"⟩, ⟨"i3", 3, "Write docs"⟩]

/-! Helper lemmas. -/

theorem strData_append (s t : String) : (s ++ t).data = s.data ++ t.data := by
  cases s; cases t; rfl

theorem listLeads_append_self (p r : List Char) : listLeads p (p ++ r) = true := by
  induction p with
  | nil => rfl
  | cons a as ih => simp [listLeads, ih]

theorem listLeads_extend (p : List Char) {l : List Char} (r : List Char)
    (h : listLeads p l = true) : listLeads p (l ++ r) = true := by
  induction p generalizing l with
  | nil => rfl
  | cons a as ih =>
    cases l with
    | nil => simp [listLeads] at h
    | cons b bs =>
      simp [listLeads] at h ⊢
      exact ⟨h.1, ih h.2⟩

theorem includesAux_nil_sub (h : List Char) : includesAux [] h = true := by
  induction h with
  | nil => rfl
  | cons c r ih => simp [includesAux, listLeads, ih]

theorem includesAux_here (p r : List Char) : includesAux p (p ++ r) = true := by
  cases p with
  | nil => exact includesAux_nil_sub r
  | cons a as =>
    have h := listLeads_append_self (a :: as) r
    rw [List.cons_append] at h
    simp [includesAux, h]

theorem includesAux_append_left (x : List Char) {sub r : List Char}
    (h : includesAux sub r = true) : includesAux sub (x ++ r) = true := by
  induction x with
  | nil => exact h
  | cons c cs ih => simp [includesAux, ih]

theorem includesAux_append_right {sub r : List Char} (y : List Char)
    (h : includesAux sub r = true) : includesAux sub (r ++ y) = true := by
  induction r with
  | nil =>
    cases sub with
    | nil => exact includesAux_nil_sub y
    | cons a as => simp [includesAux, listLeads] at h
  | cons c rest ih =>
    simp [includesAux] at h ⊢
    rcases h with h | h
    · exact Or.inl (listLeads_extend _ y h)
    · exact Or.inr (ih h)

theorem strIncludes_append_left (x r s : String) (h : strIncludes r s = true) :
    strIncludes (x ++ r) s = true := by
  unfold strIncludes at h ⊢
  rw [strData_append]
  exact includesAux_append_left _ h

theorem strIncludes_append_right (r y s : String) (h : strIncludes r s = true) :
    strIncludes (r ++ y) s = true := by
  unfold strIncludes at h ⊢
  rw [strData_append]
  exact includesAux_append_right _ h

theorem strIncludes_refl (s : String) : strIncludes s s = true := by
  unfold strIncludes
  have h := includesAux_here s.data []
  simpa using h

theorem joinSep_includes (sep : String) (l : List String) (x : String) (hx : x ∈ l) :
    strIncludes (joinSep sep l) x = true := by
  induction l with
  | nil => cases hx
  | cons y ys ih =>
    cases ys with
    | nil =>
      simp at hx
      subst hx
      exact strIncludes_refl x
    | cons z zs =>
      rcases List.mem_cons.mp hx with h1 | h2
      · subst h1
        exact strIncludes_append_right _ _ _
          (strIncludes_append_right _ _ _ (strIncludes_refl x))
      · exact strIncludes_append_left _ _ _ (ih h2)

theorem projectNotFoundMsg_names (ctx : TeamContext) (s : String) :
    strIncludes (projectNotFoundMsg ctx s) s = true := by
  unfold projectNotFoundMsg
  exact strIncludes_append_right _ _ _ (strIncludes_append_right _ _ _
    (strIncludes_append_left _ _ _ (strIncludes_refl s)))

theorem projectNotFoundMsg_enumerates (ctx : TeamContext) (s : String)
    (h : ctx.projects ≠ []) :
    strIncludes (projectNotFoundMsg ctx s) "Available projects: " = true := by
  have hne : ctx.projects.isEmpty = false := by
    simp [List.isEmpty_iff, h]
  unfold projectNotFoundMsg
  rw [hne]
  simp only [Bool.not_false, if_true]
  exact strIncludes_append_left _ _ _ (strIncludes_append_right _ _ _
    (strIncludes_append_right _ _ _ (strIncludes_refl _)))

theorem multipleIssuesMsg_lists (t : String) (l : List Issue) (i : Issue) (hi : i ∈ l) :
    strIncludes (multipleIssuesMsg t l)
      ("#" ++ toString i.number ++ " \"" ++ i.title ++ "\"") = true := by
  unfold multipleIssuesMsg
  refine strIncludes_append_right _ _ _ (strIncludes_append_left _ _ _ ?_)
  exact joinSep_includes _ _ _
    (List.mem_map_of_mem (fun i => "#" ++ toString i.number ++ " \"" ++ i.title ++ "\"") hi)

theorem multipleProjectsMsg_lists (n : String) (l : List Project) (p : Project) (hp : p ∈ l) :
    strIncludes (multipleProjectsMsg n l) (p.name ++ " (" ++ p.key ++ ")") = true := by
  unfold multipleProjectsMsg
  refine strIncludes_append_right _ _ _ (strIncludes_append_left _ _ _ ?_)
  exact joinSep_includes _ _ _
    (List.mem_map_of_mem (fun p => p.name ++ " (" ++ p.key ++ ")") hp)

theorem truthy_some (t : String) (h : t ≠ "") : truthy (some t) = true := by
  simp [truthy, bne_iff_ne, h]

theorem createIssueExecute_missing (ctx : TeamContext) (a : CreateIssueArgs)
    (h : (missingFields a).isEmpty = false) :
    createIssueExecute ctx a = .failure (clarificationMessage ctx (missingFields a)) := by
  simp [createIssueExecute, h]

theorem createIssueExecute_validated (ctx : TeamContext) (a : CreateIssueArgs)
    (h1 : missingStr a.title = false) (h2 : missingStr a.workflowStateId = false)
    (h3 : a.priority.isNone = false) (h4 : missingStr a.projectId = false) :
    createIssueExecute ctx a =
      match resolveProject ctx (a.projectId.getD "") with
      | Option.none => .failure (projectNotFoundMsg ctx (a.projectId.getD ""))
      | some rpid => .dispatch (createPayload ctx a rpid) := by
  simp [createIssueExecute, missingFields, h1, h2, h3, h4]

theorem updateIssue_locate_nil (ctx : TeamContext) (issues : List Issue)
    (a : UpdateIssueArgs) (t : String)
    (hT : a.title = some t) (ht : t ≠ "") (hid : a.issueId = none)
    (hL : locateByTitle issues t = []) :
    updateIssueExecute ctx issues a = .failure (noIssueFoundMsg t) := by
  simp [updateIssueExecute, hT, hid, truthy, bne_iff_ne, ht, hL]

theorem updateIssue_locate_one (ctx : TeamContext) (issues : List Issue)
    (a : UpdateIssueArgs) (t : String) (i : Issue)
    (hT : a.title = some t) (ht : t ≠ "") (hid : a.issueId = none)
    (hL : locateByTitle issues t = [i]) (hne : i.id ≠ "") :
    updateIssueExecute ctx issues a = .dispatch i.id (updatePayload ctx a) := by
  simp [updateIssueExecute, hT, hid, truthy, bne_iff_ne, ht, hL, hne]

theorem updateIssue_locate_many (ctx : TeamContext) (issues : List Issue)
    (a : UpdateIssueArgs) (t : String) (i j : Issue) (rest : List Issue)
    (hT : a.title = some t) (ht : t ≠ "") (hid : a.issueId = none)
    (hL : locateByTitle issues t = i :: j :: rest) :
    updateIssueExecute ctx issues a = .failure (multipleIssuesMsg t (i :: j :: rest)) := by
  simp [updateIssueExecute, hT, hid, truthy, bne_iff_ne, ht, hL]

theorem deleteIssue_locate_nil (issues : List Issue) (t : String) (ht : t ≠ "")
    (hL : locateByTitle issues t = []) :
    deleteIssueExecute issues (some t) none = .failure (noIssueFoundMsg t) := by
  simp [deleteIssueExecute, truthy, bne_iff_ne, ht, hL]

theorem deleteIssue_locate_one (issues : List Issue) (t : String) (i : Issue)
    (ht : t ≠ "") (hL : locateByTitle issues t = [i]) (hne : i.id ≠ "") :
    ∃ msg, deleteIssueExecute issues (some t) none = .dispatch i.id msg := by
  have hmem : i ∈ issues := by
    have := hL ▸ (List.mem_singleton.mpr rfl : i ∈ [i])
    exact (List.mem_filter.mp this).1
  have hfind : ∃ j, issues.find? (fun x => x.id == i.id) = some j := by
    have hsome : (issues.find? (fun x => x.id == i.id)).isSome = true := by
      rw [List.find?_isSome]
      exact ⟨i, hmem, by simp⟩
    exact Option.isSome_iff_exists.mp hsome
  rcases hfind with ⟨j, hj⟩
  refine ⟨"Issue #" ++ toString j.number ++ " \"" ++ j.title ++ "\" has been deleted successfully.", ?_⟩
  simp [deleteIssueExecute, truthy, bne_iff_ne, ht, hL, hne, hj]

theorem deleteIssue_locate_many (issues : List Issue) (t : String) (i j : Issue)
    (rest : List Issue) (ht : t ≠ "")
    (hL : locateByTitle issues t = i :: j :: rest) :
    deleteIssueExecute issues (some t) none = .failure (multipleIssuesMsg t (i :: j :: rest)) := by
  simp [deleteIssueExecute, truthy, bne_iff_ne, ht, hL]

theorem updateProject_locate_nil (ctx : TeamContext) (a : UpdateProjectArgs) (n : String)
    (hN : a.name = some n) (hn : n ≠ "") (hid : a.projectId = none)
    (hL : locateProjectsByName ctx.projects n = []) :
    updateProjectExecute ctx a = .failure (noProjectFoundMsg n) := by
  simp [updateProjectExecute, hN, hid, truthy, bne_iff_ne, hn, hL]

theorem updateProject_locate_one (ctx : TeamContext) (a : UpdateProjectArgs) (n : String)
    (p : Project) (hN : a.name = some n) (hn : n ≠ "") (hid : a.projectId = none)
    (hL : locateProjectsByName ctx.projects n = [p]) (hne : p.id ≠ "") :
    updateProjectExecute ctx a = .dispatch p.id (updateProjectPayload ctx a) := by
  simp [updateProjectExecute, hN, hid, truthy, bne_iff_ne, hn, hL, hne]

theorem updateProject_locate_many (ctx : TeamContext) (a : UpdateProjectArgs) (n : String)
    (p q : Project) (rest : List Project)
    (hN : a.name = some n) (hn : n ≠ "") (hid : a.projectId = none)
    (hL : locateProjectsByName ctx.projects n = p :: q :: rest) :
    updateProjectExecute ctx a = .failure (multipleProjectsMsg n (p :: q :: rest)) := by
  simp [updateProjectExecute, hN, hid, truthy, bne_iff_ne, hn, hL]

theorem contains_append_keep (l : List String) (x y : String) (h : l.contains y = true) :
    (l ++ [x]).contains y = true := by
  simp at h ⊢
  exact Or.inl h

theorem contains_append_self (l : List String) (x : String) : (l ++ [x]).contains x = true := by
  simp

theorem processMessages_cons_skip (p : List String) (m : ChatMsg) (rest : List ChatMsg)
    (hc : (m.id == "" || p.contains m.id) = true) :
    processMessages p (m :: rest) = processMessages p rest := by
  simp only [processMessages]
  rw [if_pos hc]

theorem processMessages_cons_proc (p : List String) (m : ChatMsg) (rest : List ChatMsg)
    (hc : (m.id == "" || p.contains m.id) = false) :
    processMessages p (m :: rest) =
      ((processMessages (p ++ [m.id]) rest).1,
        msgSched m ++ (processMessages (p ++ [m.id]) rest).2) := by
  simp only [processMessages]
  have hn : ¬((m.id == "" || p.contains m.id) = true) := by rw [hc]; simp
  rw [if_neg hn]

theorem processMessages_mono (msgs : List ChatMsg) :
    ∀ p x, p.contains x = true → ((processMessages p msgs).1).contains x = true := by
  induction msgs with
  | nil => intro p x h; simpa [processMessages] using h
  | cons m rest ih =>
    intro p x h
    cases hc : (m.id == "" || p.contains m.id) with
    | true =>
      rw [processMessages_cons_skip p m rest hc]
      exact ih p x h
    | false =>
      rw [processMessages_cons_proc p m rest hc]
      exact ih (p ++ [m.id]) x (contains_append_keep p m.id x h)

theorem processMessages_complete (msgs : List ChatMsg) :
    ∀ p m, m ∈ msgs → (m.id == "") = false →
      ((processMessages p msgs).1).contains m.id = true := by
  induction msgs with
  | nil => intro p m hm _; cases hm
  | cons m0 rest ih =>
    intro p m hm hne
    rcases List.mem_cons.mp hm with rfl | hmem
    · cases hc : (m.id == "" || p.contains m.id) with
      | true =>
        have hpc : p.contains m.id = true := by
          rcases Bool.or_eq_true_iff.mp hc with h1 | h1
          · rw [hne] at h1; cases h1
          · exact h1
        rw [processMessages_cons_skip p m rest hc]
        exact processMessages_mono rest p m.id hpc
      | false =>
        rw [processMessages_cons_proc p m rest hc]
        exact processMessages_mono rest (p ++ [m.id]) m.id (contains_append_self p m.id)
    · cases hc : (m0.id == "" || p.contains m0.id) with
      | true =>
        rw [processMessages_cons_skip p m0 rest hc]
        exact ih p m hmem hne
      | false =>
        rw [processMessages_cons_proc p m0 rest hc]
        exact ih (p ++ [m0.id]) m hmem hne

theorem processMessages_skip_all (msgs : List ChatMsg) :
    ∀ q, (∀ m, m ∈ msgs → (m.id == "") = true ∨ q.contains m.id = true) →
      (processMessages q msgs).2 = [] := by
  induction msgs with
  | nil => intro q _; rfl
  | cons m rest ih =>
    intro q h
    have hc : (m.id == "" || q.contains m.id) = true := by
      rcases h m (List.mem_cons_self m rest) with h1 | h1
      · rw [h1]; simp
      · rw [h1]; simp
    rw [processMessages_cons_skip q m rest hc]
    exact ih q (fun m2 hm2 => h m2 (List.mem_cons_of_mem _ hm2))

theorem processMessages_filter (msgs : List ChatMsg) :
    ∀ p q : List String, (∀ x, p.contains x = true → q.contains x = true) →
      processMessages q msgs = processMessages q (msgs.filter (fun m => !p.contains m.id)) := by
  induction msgs with
  | nil => intro p q _; rfl
  | cons m rest ih =>
    intro p q h
    cases hpc : p.contains m.id with
    | true =>
      have hqc : q.contains m.id = true := h _ hpc
      have hc : (m.id == "" || q.contains m.id) = true := by rw [hqc]; simp
      rw [List.filter_cons]
      rw [hpc]
      simp only [Bool.not_true, if_false]
      rw [processMessages_cons_skip q m rest hc]
      exact ih p q h
    | false =>
      rw [List.filter_cons]
      rw [hpc]
      simp only [Bool.not_false, if_true]
      cases hc : (m.id == "" || q.contains m.id) with
      | true =>
        rw [processMessages_cons_skip q m rest hc, processMessages_cons_skip q m
          (rest.filter (fun m => !p.contains m.id)) hc]
        exact ih p q h
      | false =>
        rw [processMessages_cons_proc q m rest hc, processMessages_cons_proc q m
          (rest.filter (fun m => !p.contains m.id)) hc]
        rw [ih p (q ++ [m.id]) (fun x hx => contains_append_keep q m.id x (h x hx))]

/-! Claim theorems. -/

set_option maxRecDepth 10000

theorem updateIssue_byId (ctx : TeamContext) (issues : List Issue) (a : UpdateIssueArgs)
    (iid : String) (hid : a.issueId = some iid) (hne : iid ≠ "") :
    updateIssueExecute ctx issues a = .dispatch iid (updatePayload ctx a) := by
  simp [updateIssueExecute, hid, truthy, bne_iff_ne, hne]

/-- Claim C1: for create-issue with title, workflowState and project supplied,
a null/undefined priority fails validation with the priority-only
clarification message — which enumerates low, medium, high, urgent, none and
mentions no other field — and the priority is never silently defaulted: any
dispatched payload carries exactly the supplied priority, and an explicitly
supplied "none" passes the missing-field validation. -/
theorem c1_priority_validation (ctx : TeamContext) (a : CreateIssueArgs)
    (ht : missingStr a.title = false) (hw : missingStr a.workflowStateId = false)
    (hpj : missingStr a.projectId = false) :
    (a.priority = none →
      createIssueExecute ctx a = .failure priorityOnlyMsg
      ∧ strIncludes priorityOnlyMsg "priority" = true
      ∧ strIncludes priorityOnlyMsg "low, medium, high, urgent, or none" = true
      ∧ strIncludes priorityOnlyMsg "project" = false
      ∧ strIncludes priorityOnlyMsg "title" = false
      ∧ strIncludes priorityOnlyMsg "status" = false)
    ∧ (∀ p : Priority, a.priority = some p →
        missingFields a = []
        ∧ ∀ pay : CreateIssuePayload, createIssueExecute ctx a = .dispatch pay →
            pay.priority = p) := by
  constructor
  · intro hpr
    have hm : missingFields a = ["priority"] := by
      simp [missingFields, ht, hw, hpj, hpr]
    refine ⟨?_, by decide, by decide, by decide, by decide, by decide⟩
    rw [createIssueExecute_missing ctx a (by rw [hm]; rfl), hm]
    simp +decide [clarificationMessage]
  · intro p hpr
    have hm : missingFields a = [] := by
      simp [missingFields, ht, hw, hpj, hpr]
    refine ⟨hm, ?_⟩
    intro pay hd
    rw [createIssueExecute_validated ctx a ht hw (by rw [hpr]; rfl) hpj] at hd
    cases hres : resolveProject ctx (a.projectId.getD "") with
    | none => rw [hres] at hd; simp at hd
    | some rpid =>
      rw [hres] at hd
      simp at hd
      rw [← hd]
      simp [createPayload, hpr]

theorem c1_priority_validation_witness :
    createIssueExecute ctx0
      { title := some "x", workflowStateId := some "Todo", projectId := some "Web App" } =
      .failure priorityOnlyMsg
    ∧ missingFields
        { title := some "x", workflowStateId := some "Todo", projectId := some "Web App",
          priority := some Priority.none } = [] :=
  ⟨((c1_priority_validation ctx0
      { title := some "x", workflowStateId := some "Todo", projectId := some "Web App" }
      (by decide) (by decide) (by decide)).1 rfl).1,
   ((c1_priority_validation ctx0
      { title := some "x", workflowStateId := some "Todo", projectId := some "Web App",
        priority := some Priority.none }
      (by decide) (by decide) (by decide)).2 Priority.none rfl).1⟩

/-- Claim C2 (counterexample): with title, priority and project all missing
(projects available in the context), the emitted message is the
priority-combination message, which contains no available-projects guidance
even though project is among the missing fields. -/
theorem c2_counterexample :
    createIssueExecute ctx3 { workflowStateId := some "Todo" } =
      .failure (priorityComboMsg ["title", "project"])
    ∧ missingFields { workflowStateId := some "Todo" } = ["title", "priority", "project"]
    ∧ strIncludes (priorityComboMsg ["title", "project"]) "Available projects" = false
    ∧ ctx3.projects ≠ [] :=
  ⟨by decide, by decide, by decide, by decide⟩

/-- Claim C2 (amended): the clarification message branches on the missing
subset — exactly priority → priority-specific message; exactly project →
project-specific message; exactly priority and project → the combined
two-part message; any other combination → the enumerated message, with
priority guidance appended when priority is missing, and project guidance
appended only when project but not priority is missing. -/
theorem c2_message_selection (ctx : TeamContext) (a : CreateIssueArgs) :
    (missingStr a.title = false → missingStr a.workflowStateId = false →
      a.priority = none → missingStr a.projectId = false →
      createIssueExecute ctx a = .failure priorityOnlyMsg)
    ∧ (missingStr a.title = false → missingStr a.workflowStateId = false →
      a.priority.isNone = false → missingStr a.projectId = true →
      createIssueExecute ctx a = .failure (projectOnlyMsg ctx))
    ∧ (missingStr a.title = false → missingStr a.workflowStateId = false →
      a.priority = none → missingStr a.projectId = true →
      createIssueExecute ctx a = .failure (bothMissingMsg ctx))
    ∧ ((missingStr a.title = true ∨ missingStr a.workflowStateId = true) →
      a.priority = none →
      createIssueExecute ctx a = .failure (priorityComboMsg
        ((if missingStr a.title then ["title"] else []) ++
         (if missingStr a.workflowStateId then ["status (workflow state)"] else []) ++
         (if missingStr a.projectId then ["project"] else []))))
    ∧ ((missingStr a.title = true ∨ missingStr a.workflowStateId = true) →
      a.priority.isNone = false → missingStr a.projectId = true →
      createIssueExecute ctx a = .failure (projectComboMsg ctx
        ((if missingStr a.title then ["title"] else []) ++
         (if missingStr a.workflowStateId then ["status (workflow state)"] else []))))
    ∧ ((missingStr a.title = true ∨ missingStr a.workflowStateId = true) →
      a.priority.isNone = false → missingStr a.projectId = false →
      createIssueExecute ctx a = .failure (genericMissingMsg
        ((if missingStr a.title then ["title"] else []) ++
         (if missingStr a.workflowStateId then ["status (workflow state)"] else [])))) := by
  refine ⟨?_, ?_, ?_, ?_, ?_, ?_⟩
  · intro hT hW hP hPj
    have hm : missingFields a = ["priority"] := by
      simp [missingFields, hT, hW, hP, hPj]
    rw [createIssueExecute_missing ctx a (by rw [hm]; rfl), hm]
    simp +decide [clarificationMessage]
  · intro hT hW hP hPj
    have hm : missingFields a = ["project"] := by
      simp [missingFields, hT, hW, hP, hPj]
    rw [createIssueExecute_missing ctx a (by rw [hm]; rfl), hm]
    simp +decide [clarificationMessage]
  · intro hT hW hP hPj
    have hm : missingFields a = ["priority", "project"] := by
      simp [missingFields, hT, hW, hP, hPj]
    rw [createIssueExecute_missing ctx a (by rw [hm]; rfl), hm]
    simp +decide [clarificationMessage]
  · intro hTW hP
    rcases hTW with hT | hW
    · cases hW : missingStr a.workflowStateId <;> cases hPj : missingStr a.projectId <;>
        [skip; skip; skip; skip] <;>
      · first
        | (have hm : missingFields a = ["title", "priority"] := by
            simp [missingFields, hT, hW, hP, hPj]
           rw [createIssueExecute_missing ctx a (by rw [hm]; rfl), hm]
           simp +decide [clarificationMessage, hT, hW, hPj])
        | (have hm : missingFields a = ["title", "priority", "project"] := by
            simp [missingFields, hT, hW, hP, hPj]
           rw [createIssueExecute_missing ctx a (by rw [hm]; rfl), hm]
           simp +decide [clarificationMessage, hT, hW, hPj])
        | (have hm : missingFields a = ["title", "status (workflow state)", "priority"] := by
            simp [missingFields, hT, hW, hP, hPj]
           rw [createIssueExecute_missing ctx a (by rw [hm]; rfl), hm]
           simp +decide [clarificationMessage, hT, hW, hPj])
        | (have hm : missingFields a =
              ["title", "status (workflow state)", "priority", "project"] := by
            simp [missingFields, hT, hW, hP, hPj]
           rw [createIssueExecute_missing ctx a (by rw [hm]; rfl), hm]
           simp +decide [clarificationMessage, hT, hW, hPj])
    · cases hT : missingStr a.title <;> cases hPj : missingStr a.projectId <;>
        [skip; skip; skip; skip] <;>
      · first
        | (have hm : missingFields a = ["status (workflow state)", "priority"] := by
            simp [missingFields, hT, hW, hP, hPj]
           rw [createIssueExecute_missing ctx a (by rw [hm]; rfl), hm]
           simp +decide [clarificationMessage, hT, hW, hPj])
        | (have hm : missingFields a = ["status (workflow state)", "priority", "project"] := by
            simp [missingFields, hT, hW, hP, hPj]
           rw [createIssueExecute_missing ctx a (by rw [hm]; rfl), hm]
           simp +decide [clarificationMessage, hT, hW, hPj])
        | (have hm : missingFields a = ["title", "status (workflow state)", "priority"] := by
            simp [missingFields, hT, hW, hP, hPj]
           rw [createIssueExecute_missing ctx a (by rw [hm]; rfl), hm]
           simp +decide [clarificationMessage, hT, hW, hPj])
        | (have hm : missingFields a =
              ["title", "status (workflow state)", "priority", "project"] := by
            simp [missingFields, hT, hW, hP, hPj]
           rw [createIssueExecute_missing ctx a (by rw [hm]; rfl), hm]
           simp +decide [clarificationMessage, hT, hW, hPj])
  · intro hTW hP hPj
    rcases hTW with hT | hW
    · cases hW : missingStr a.workflowStateId <;>
      · first
        | (have hm : missingFields a = ["title", "project"] := by
            simp [missingFields, hT, hW, hP, hPj]
           rw [createIssueExecute_missing ctx a (by rw [hm]; rfl), hm]
           simp +decide [clarificationMessage, hT, hW])
        | (have hm : missingFields a = ["title", "status (workflow state)", "project"] := by
            simp [missingFields, hT, hW, hP, hPj]
           rw [createIssueExecute_missing ctx a (by rw [hm]; rfl), hm]
           simp +decide [clarificationMessage, hT, hW])
    · cases hT : missingStr a.title <;>
      · first
        | (have hm : missingFields a = ["status (workflow state)", "project"] := by
            simp [missingFields, hT, hW, hP, hPj]
           rw [createIssueExecute_missing ctx a (by rw [hm]; rfl), hm]
           simp +decide [clarificationMessage, hT, hW])
        | (have hm : missingFields a = ["title", "status (workflow state)", "project"] := by
            simp [missingFields, hT, hW, hP, hPj]
           rw [createIssueExecute_missing ctx a (by rw [hm]; rfl), hm]
           simp +decide [clarificationMessage, hT, hW])
  · intro hTW hP hPj
    rcases hTW with hT | hW
    · cases hW : missingStr a.workflowStateId <;>
      · first
        | (have hm : missingFields a = ["title"] := by
            simp [missingFields, hT, hW, hP, hPj]
           rw [createIssueExecute_missing ctx a (by rw [hm]; rfl), hm]
           simp +decide [clarificationMessage, hT, hW])
        | (have hm : missingFields a = ["title", "status (workflow state)"] := by
            simp [missingFields, hT, hW, hP, hPj]
           rw [createIssueExecute_missing ctx a (by rw [hm]; rfl), hm]
           simp +decide [clarificationMessage, hT, hW])
    · cases hT : missingStr a.title <;>
      · first
        | (have hm : missingFields a = ["status (workflow state)"] := by
            simp [missingFields, hT, hW, hP, hPj]
           rw [createIssueExecute_missing ctx a (by rw [hm]; rfl), hm]
           simp +decide [clarificationMessage, hT, hW])
        | (have hm : missingFields a = ["title", "status (workflow state)"] := by
            simp [missingFields, hT, hW, hP, hPj]
           rw [createIssueExecute_missing ctx a (by rw [hm]; rfl), hm]
           simp +decide [clarificationMessage, hT, hW])

theorem c2_message_selection_witness :
    createIssueExecute ctx0 { title := some "x", workflowStateId := some "Todo" } =
      .failure (bothMissingMsg ctx0) :=
  (c2_message_selection ctx0
    { title := some "x", workflowStateId := some "Todo" }).2.2.1
    (by decide) (by decide) rfl (by decide)

/-- Claim C3 (counterexample): the spec's resolver resolves "Web" against the
single project named "Web App" through the substring fallback, but the chat
route's project resolution has no substring stage and returns the not-found
failure on the same snapshot. -/
theorem c3_counterexample :
    specResolve [("p1", "Web App")] "Web" = SpecOutcome.resolved "p1"
    ∧ strIncludes (strLower "Web App") (strLower "Web") = true
    ∧ createIssueExecute ctx3
        { title := some "x", workflowStateId := some "Todo", projectId := some "Web",
          priority := some Priority.high } =
      .failure (projectNotFoundMsg ctx3 "Web") :=
  ⟨by decide, by decide, by decide⟩

/-- Claim C3 (amended): the create-issue reference resolvers use exact
matching only — a project reference resolves exactly when some project's id,
key or name matches case-insensitively, and zero exact matches yields the
not-found failure with no substring fallback; substring containment exists
only in the update/delete title locators, which are one-directional (entity
title contains the reference) with zero/one/many matches giving
not-found/dispatch/multi-match-failure. -/
theorem c3_exact_resolution (ctx : TeamContext) (a : CreateIssueArgs) (s : String)
    (ht : missingStr a.title = false) (hw : missingStr a.workflowStateId = false)
    (hp : a.priority.isNone = false) (hpj : a.projectId = some s)
    (hs : missingStr (some s) = false) :
    (resolveProject ctx s = none →
      createIssueExecute ctx a = .failure (projectNotFoundMsg ctx s))
    ∧ (∀ pid, resolveProject ctx s = some pid →
        createIssueExecute ctx a = .dispatch (createPayload ctx a pid))
    ∧ (∀ (issues : List Issue) (t : String), t ≠ "" →
        (locateByTitle issues t = [] →
          updateIssueExecute ctx issues { title := some t } = .failure (noIssueFoundMsg t))
        ∧ (∀ i : Issue, locateByTitle issues t = [i] → i.id ≠ "" →
            updateIssueExecute ctx issues { title := some t } =
              .dispatch i.id (updatePayload ctx { title := some t }))
        ∧ (∀ (i j : Issue) (rest : List Issue), locateByTitle issues t = i :: j :: rest →
            updateIssueExecute ctx issues { title := some t } =
              .failure (multipleIssuesMsg t (i :: j :: rest)))) := by
  have hgd : a.projectId.getD "" = s := by rw [hpj]; rfl
  have hs2 : missingStr a.projectId = false := by rw [hpj]; exact hs
  refine ⟨?_, ?_, ?_⟩
  · intro hres
    rw [createIssueExecute_validated ctx a ht hw hp hs2, hgd, hres]
  · intro pid hres
    rw [createIssueExecute_validated ctx a ht hw hp hs2, hgd, hres]
  · intro issues t htne
    exact ⟨fun hL => updateIssue_locate_nil ctx issues _ t rfl htne rfl hL,
           fun i hL hne => updateIssue_locate_one ctx issues _ t i rfl htne rfl hL hne,
           fun i j rest hL => updateIssue_locate_many ctx issues _ t i j rest rfl htne rfl hL⟩

theorem c3_exact_resolution_witness :
    createIssueExecute ctx0
      { title := some "x", workflowStateId := some "Todo", projectId := some "WAP",
        priority := some Priority.low } =
      .dispatch (createPayload ctx0
        { title := some "x", workflowStateId := some "Todo", projectId := some "WAP",
          priority := some Priority.low } "p1") :=
  (c3_exact_resolution ctx0
    { title := some "x", workflowStateId := some "Todo", projectId := some "WAP",
      priority := some Priority.low } "WAP"
    (by decide) (by decide) (by decide) rfl (by decide)).2.1 "p1" (by decide)

/-- Claim C4 (counterexample): in create-issue the literal assignee
"unassigned" is not treated as a clear-assignee sentinel — the member matcher
runs on it (it would resolve a member actually named "Unassigned") and the
raw string is forwarded in the dispatched payload instead of no assignee. -/
theorem c4_counterexample :
    createIssueExecute ctx0
      { title := some "x", workflowStateId := some "Todo", projectId := some "WAP",
        priority := some Priority.low, assigneeId := some "unassigned" } =
      .dispatch { title := "x", description := none, projectId := "p1",
                  workflowStateId := "ws1", assigneeId := some "unassigned",
                  priority := Priority.low, estimate := none, labelIds := none }
    ∧ resolveAssigneeCreate
        ⟨[], [], [], [⟨"u9", "Unassigned"⟩]⟩ (some "unassigned") = some "u9" :=
  ⟨by decide, by decide⟩

/-- Claim C4 (amended): in update-issue an assignee equal to actual null or
the literal strings "unassigned"/"null"/"undefined" clears the assignee —
the payload assignee change is (null, null) for every member list, and the
command still dispatches; in create-issue only an actual null/undefined
assignee yields no assignee, while a non-empty unmatched string (including
those literals) is forwarded verbatim; neither command produces an assignee
not-found failure. -/
theorem c4_assignee_sentinel (ctx : TeamContext) (issues : List Issue)
    (a : UpdateIssueArgs) (iid : String)
    (hid : a.issueId = some iid) (hne : iid ≠ "") :
    ((a.assigneeId = some none ∨ a.assigneeId = some (some "unassigned") ∨
      a.assigneeId = some (some "null") ∨ a.assigneeId = some (some "undefined")) →
      updateIssueExecute ctx issues a = .dispatch iid (updatePayload ctx a)
      ∧ (updatePayload ctx a).assigneeChange = some (none, none))
    ∧ (∀ b : CreateIssueArgs, b.assigneeId = none → ∀ rpid,
        (createPayload ctx b rpid).assigneeId = none)
    ∧ (∀ s2 : String, s2 ≠ "" →
        ctx.members.find? (fun m => m.userId == s2 || strLower m.userName == strLower s2) = none →
        ∀ b : CreateIssueArgs, b.assigneeId = some s2 → ∀ rpid,
          (createPayload ctx b rpid).assigneeId = some s2) := by
  refine ⟨?_, ?_, ?_⟩
  · intro ha
    refine ⟨updateIssue_byId ctx issues a iid hid hne, ?_⟩
    rcases ha with h | h | h | h <;>
      simp [updatePayload, resolveAssigneeUpdate, h]
  · intro b hb rpid
    simp [createPayload, resolveAssigneeCreate, orUndef, hb]
  · intro s2 hs2 hfind b hb rpid
    simp [createPayload, resolveAssigneeCreate, orUndef, hb, hfind, bne_iff_ne, hs2]

theorem c4_assignee_sentinel_witness :
    updateIssueExecute ctx0 issues0
      { issueId := some "i1", assigneeId := some (some "unassigned") } =
      .dispatch "i1" (updatePayload ctx0
        { issueId := some "i1", assigneeId := some (some "unassigned") })
    ∧ (updatePayload ctx0
        { issueId := some "i1", assigneeId := some (some "unassigned") }).assigneeChange =
      some (none, none) :=
  (c4_assignee_sentinel ctx0 issues0
    { issueId := some "i1", assigneeId := some (some "unassigned") } "i1"
    rfl (by decide)).1 (Or.inr (Or.inl rfl))

/-- Claim C5 (counterexample): an unresolvable workflow-state name and an
unresolvable label name do not produce a structured failure — the raw names
"Bogus" and "NoSuchLabel" are forwarded to the data store inside the
dispatched creation payload. -/
theorem c5_counterexample :
    createIssueExecute ctx0
      { title := some "x", workflowStateId := some "Bogus", projectId := some "WAP",
        priority := some Priority.low, labelIds := some ["NoSuchLabel"] } =
      .dispatch { title := "x", description := none, projectId := "p1",
                  workflowStateId := "Bogus", assigneeId := none,
                  priority := Priority.low, estimate := none,
                  labelIds := some ["NoSuchLabel"] }
    ∧ ctx0.workflowStates.find?
        (fun w => w.id == "Bogus" || strLower w.name == strLower "Bogus") = none
    ∧ ctx0.labels.find?
        (fun l => l.id == "NoSuchLabel" || strLower l.name == strLower "NoSuchLabel") = none :=
  ⟨by decide, by decide, by decide⟩

/-- Claim C5 (amended): only an unresolved project reference aborts the
command with a structured failure — one that names the unresolved value and
enumerates the available projects when any exist; unresolved workflowState,
assignee and label names are forwarded verbatim inside the dispatched
payload. -/
theorem c5_unresolved_refs (ctx : TeamContext) (a : CreateIssueArgs) (s : String)
    (ht : missingStr a.title = false) (hw : missingStr a.workflowStateId = false)
    (hp : a.priority.isNone = false) :
    (a.projectId = some s → missingStr (some s) = false →
      resolveProject ctx s = none →
      createIssueExecute ctx a = .failure (projectNotFoundMsg ctx s)
      ∧ strIncludes (projectNotFoundMsg ctx s) s = true
      ∧ (ctx.projects ≠ [] →
          strIncludes (projectNotFoundMsg ctx s) "Available projects: " = true))
    ∧ (∀ w : String, a.workflowStateId = some w → w ≠ "" →
        ctx.workflowStates.find? (fun x => x.id == w || strLower x.name == strLower w) = none →
        ∀ rpid, (createPayload ctx a rpid).workflowStateId = w)
    ∧ (∀ s2 : String, s2 ≠ "" → a.assigneeId = some s2 →
        ctx.members.find? (fun m => m.userId == s2 || strLower m.userName == strLower s2) = none →
        ∀ rpid, (createPayload ctx a rpid).assigneeId = some s2)
    ∧ (∀ (ls : List String) (x : String), a.labelIds = some ls → x ∈ ls →
        ctx.labels.find? (fun l => l.id == x || strLower l.name == strLower x) = none →
        ∀ rpid, x ∈ ((createPayload ctx a rpid).labelIds.getD [])) := by
  refine ⟨?_, ?_, ?_, ?_⟩
  · intro hpj hsm hres
    have hs2 : missingStr a.projectId = false := by rw [hpj]; exact hsm
    have hgd : a.projectId.getD "" = s := by rw [hpj]; rfl
    refine ⟨?_, projectNotFoundMsg_names ctx s, fun h => projectNotFoundMsg_enumerates ctx s h⟩
    rw [createIssueExecute_validated ctx a ht hw hp hs2, hgd, hres]
  · intro w hww hwne hfind rpid
    simp [createPayload, wsInput, resolveWorkflowState, hww, bne_iff_ne, hwne, hfind]
  · intro s2 hs2 hb hfind rpid
    simp [createPayload, resolveAssigneeCreate, orUndef, hb, hfind, bne_iff_ne, hs2]
  · intro ls x hls hx hfind rpid
    have hlen : 0 < ls.length := List.length_pos.mpr (List.ne_nil_of_mem hx)
    simp [createPayload, hls, hlen]
    exact ⟨x, hx, by simp [resolveLabel, hfind]⟩

theorem c5_unresolved_refs_witness :
    createIssueExecute ctx0
      { title := some "x", workflowStateId := some "Todo", projectId := some "Nope",
        priority := some Priority.low } = .failure (projectNotFoundMsg ctx0 "Nope") :=
  ((c5_unresolved_refs ctx0
    { title := some "x", workflowStateId := some "Todo", projectId := some "Nope",
      priority := some Priority.low } "Nope"
    (by decide) (by decide) (by decide)).1 rfl (by decide) (by decide)).1

/-- Claim C6: for update-issue, delete-issue and update-project located by a
title/name search with no id, zero hits yields the not-found failure, exactly
one hit dispatches the mutation with that entity's id, and more than one hit
yields a failure (no mutation dispatched) whose message lists every matching
entity by its display identifier. -/
theorem c6_locator_multimatch (ctx : TeamContext) (issues : List Issue) (t : String)
    (ht : t ≠ "") :
    ((locateByTitle issues t = [] →
        updateIssueExecute ctx issues { title := some t } = .failure (noIssueFoundMsg t)
        ∧ deleteIssueExecute issues (some t) none = .failure (noIssueFoundMsg t))
    ∧ (∀ i : Issue, locateByTitle issues t = [i] → i.id ≠ "" →
        updateIssueExecute ctx issues { title := some t } =
          .dispatch i.id (updatePayload ctx { title := some t })
        ∧ ∃ msg, deleteIssueExecute issues (some t) none = .dispatch i.id msg)
    ∧ (∀ (i j : Issue) (rest : List Issue), locateByTitle issues t = i :: j :: rest →
        updateIssueExecute ctx issues { title := some t } =
          .failure (multipleIssuesMsg t (i :: j :: rest))
        ∧ deleteIssueExecute issues (some t) none =
          .failure (multipleIssuesMsg t (i :: j :: rest))
        ∧ ∀ x ∈ i :: j :: rest,
            strIncludes (multipleIssuesMsg t (i :: j :: rest))
              ("#" ++ toString x.number ++ " \"" ++ x.title ++ "\"") = true))
    ∧ ((locateProjectsByName ctx.projects t = [] →
        updateProjectExecute ctx { name := some t } = .failure (noProjectFoundMsg t))
    ∧ (∀ p : Project, locateProjectsByName ctx.projects t = [p] → p.id ≠ "" →
        updateProjectExecute ctx { name := some t } =
          .dispatch p.id (updateProjectPayload ctx { name := some t }))
    ∧ (∀ (p q : Project) (rest : List Project),
        locateProjectsByName ctx.projects t = p :: q :: rest →
        updateProjectExecute ctx { name := some t } =
          .failure (multipleProjectsMsg t (p :: q :: rest))
        ∧ ∀ x ∈ p :: q :: rest,
            strIncludes (multipleProjectsMsg t (p :: q :: rest))
              (x.name ++ " (" ++ x.key ++ ")") = true)) := by
  refine ⟨⟨?_, ?_, ?_⟩, ⟨?_, ?_, ?_⟩⟩
  · intro hL
    exact ⟨updateIssue_locate_nil ctx issues _ t rfl ht rfl hL,
           deleteIssue_locate_nil issues t ht hL⟩
  · intro i hL hne
    exact ⟨updateIssue_locate_one ctx issues _ t i rfl ht rfl hL hne,
           deleteIssue_locate_one issues t i ht hL hne⟩
  · intro i j rest hL
    exact ⟨updateIssue_locate_many ctx issues _ t i j rest rfl ht rfl hL,
           deleteIssue_locate_many issues t i j rest ht hL,
           fun x hx => multipleIssuesMsg_lists t (i :: j :: rest) x hx⟩
  · intro hL
    exact updateProject_locate_nil ctx _ t rfl ht rfl hL
  · intro p hL hne
    exact updateProject_locate_one ctx _ t p rfl ht rfl hL hne
  · intro p q rest hL
    exact ⟨updateProject_locate_many ctx _ t p q rest rfl ht rfl hL,
           fun x hx => multipleProjectsMsg_lists t (p :: q :: rest) x hx⟩

theorem c6_locator_multimatch_witness :
    updateIssueExecute ctx0 issues0 { title := some "fix log" } =
      .failure (multipleIssuesMsg "fix log"
        [⟨"i1", 1, "Fix login bug"⟩, ⟨"i2", 2, "Fix logout bug"⟩]) :=
  ((c6_locator_multimatch ctx0 issues0 "fix log" (by decide)).1.2.2
    ⟨"i1", 1, "Fix login bug"⟩ ⟨"i2", 2, "Fix logout bug"⟩ [] (by decide)).1

/-- Claim C7: on every observer run where the previous status was not ready,
the new status is ready and the final message is assistant-authored, the
output schedule is the per-message targeted dispatches followed by the
fallback timeout at the longer fixed delay, whose actions include all three
refresh signals — for every message content, and also when targeted
dispatches fired in the same run. -/
theorem c7_fallback_refresh (st : ObserverState) (status : String) (msgs : List ChatMsg)
    (last : ChatMsg) (h1 : st.prevStatus ≠ "ready") (h2 : status = "ready")
    (h3 : msgs.getLast? = some last) (h4 : last.role = "assistant") :
    (observerStep st status msgs).2 =
      (processMessages st.processed msgs).2 ++ [⟨fallbackDelay, fallbackEvents⟩]
    ∧ targetedDelay < fallbackDelay
    ∧ "refresh-issues" ∈ fallbackEvents
    ∧ "refresh-projects" ∈ fallbackEvents
    ∧ "refresh-people" ∈ fallbackEvents := by
  have hne : msgs ≠ [] := by
    intro h
    rw [h] at h3
    cases h3
  have hemp : msgs.isEmpty = false := by simp [List.isEmpty_iff, hne]
  refine ⟨?_, by decide, by decide, by decide, by decide⟩
  simp [observerStep, h2, hemp, bne_iff_ne, h1, h3, h4]

theorem c7_fallback_refresh_witness :
    (observerStep ⟨[], "streaming"⟩ "ready" [⟨"m1", "assistant", []⟩]).2 =
      (processMessages [] [⟨"m1", "assistant", []⟩]).2 ++ [⟨fallbackDelay, fallbackEvents⟩] :=
  (c7_fallback_refresh ⟨[], "streaming"⟩ "ready" [⟨"m1", "assistant", []⟩]
    ⟨"m1", "assistant", []⟩ (by decide) rfl rfl rfl).1

/-- Claim C8: each message is scanned at most once — processing is unaffected
by messages whose ids are already in the processed set, re-invoking the
per-message pass on the same message set after one run produces no schedules
at all, and one run adds every non-empty message id to the processed set. -/
theorem c8_processed_idempotent (p : List String) (msgs : List ChatMsg) :
    (processMessages (processMessages p msgs).1 msgs).2 = []
    ∧ processMessages p msgs = processMessages p (msgs.filter (fun m => !p.contains m.id))
    ∧ ∀ m, m ∈ msgs → (m.id == "") = false →
        ((processMessages p msgs).1).contains m.id = true := by
  refine ⟨?_, processMessages_filter msgs p p (fun x hx => hx), processMessages_complete msgs p⟩
  apply processMessages_skip_all
  intro m hm
  by_cases hid : (m.id == "") = true
  · exact Or.inl hid
  · exact Or.inr (processMessages_complete msgs p m hm (Bool.eq_false_iff.mpr hid))

theorem c8_processed_idempotent_witness :
    (processMessages (processMessages [] [⟨"m1", "assistant", []⟩]).1
      [⟨"m1", "assistant", []⟩]).2 = []
    ∧ ((processMessages [] [⟨"m1", "assistant", []⟩]).1).contains "m1" = true :=
  ⟨(c8_processed_idempotent [] [⟨"m1", "assistant", []⟩]).1,
   (c8_processed_idempotent [] [⟨"m1", "assistant", []⟩]).2.2
     ⟨"m1", "assistant", []⟩ (by simp) (by decide)⟩

/-- Claim C9: create-project with name and key supplied never fails
validation — with color absent it dispatches the creation with the fixed
default color '#6366f1', and with status absent with status 'active'; the
remaining fields pass through. -/
theorem c9_project_defaults (ctx : TeamContext) (n k : String) (d ic ld : Option String) :
    createProjectExecute ctx
      { name := n, description := d, key := k, color := none, icon := ic,
        leadId := ld, status := none } =
      { name := n, description := d, key := k, color := "#6366f1", icon := ic,
        leadId := ld, status := ProjStatus.active,
        lead := (match ld with
          | some lid =>
            if lid != "" then (ctx.members.find? (fun m => m.userId == lid)).map Member.userName
            else none
          | Option.none => none) } := rfl

/-- Claim C10: listIssues with an absent, null or zero limit returns every
issue (zero is treated as no limit), and a positive limit n returns the first
min(n, total) issues in list order, with count the length of the returned
slice and total the full list length. -/
theorem c10_list_limit (issues : List Issue) :
    (listIssuesExecute issues none).issues = issues
    ∧ (listIssuesExecute issues none).count = issues.length
    ∧ (listIssuesExecute issues none).total = issues.length
    ∧ (listIssuesExecute issues (some 0)).issues = issues
    ∧ ∀ n : Int, 0 < n →
        (listIssuesExecute issues (some n)).issues = issues.take n.toNat
        ∧ (listIssuesExecute issues (some n)).count = min n.toNat issues.length
        ∧ (listIssuesExecute issues (some n)).total = issues.length := by
  refine ⟨rfl, rfl, rfl, by simp [listIssuesExecute], ?_⟩
  intro n hn
  have hnz : (n != 0) = true := by
    simp [bne_iff_ne]
    omega
  have hneg : ¬n < 0 := by omega
  refine ⟨?_, ?_, ?_⟩ <;>
    simp [listIssuesExecute, sliceTo, hnz, hneg, List.length_take]

theorem c10_list_limit_witness :
    (listIssuesExecute issues0 (some 2)).issues = issues0.take (Int.toNat 2)
    ∧ (listIssuesExecute issues0 (some 2)).count = 2 := by
  have h := (c10_list_limit issues0).2.2.2.2 2 (by decide)
  exact ⟨h.1, by rw [h.2.1]; decide⟩
